import Mathlib

/-!
# Verification of the boundless-transceiver relay pipeline

Shallow embedding of the Rust sources:

* `crates/common/src/lib.rs` — address codec (`from_wormhole_address`,
  `to_wormhole_address`), `GuestInput`, the `Journal` solidity struct and the
  `SendTransceiverMessage` event.
* `crates/zkvm/guest/src/main.rs` — the verification program (`guestMain`).
* `crates/host/src/lib.rs` — the environment builder (`build_input`).
* `crates/host/src/bin/relay.rs` — the submission gate and relayer (`relayMain`).

Byte strings (`Bytes`, `Address` = 20 bytes, `B256` = 32 bytes) are modelled as
`List Nat`; widths are tracked by explicit length hypotheses. The opaque
risc0-steel `Commitment` is modelled as an opaque `Nat`. The chain state that
a steel `EvmEnv` gives access to is modelled as a query function from a
contract address to the list of decoded `SendTransceiverMessage` logs that the
event query at that address returns; `EthEvmInput::into_env` is the identity
in this model, so `GuestInput.commitment` directly holds the environment.
External effectful collaborators (bincode serialization, journal ABI decoding,
seal encoding, transaction confirmation) appear as function/`Option`
parameters, since they are outside the repository.
-/

/-- `common::from_wormhole_address`: converts a Wormhole format B256 address to
an Ethereum `Address` by skipping the first 12 bytes and taking the last 20. -/
def from_wormhole_address (wormhole_addr : List Nat) : List Nat :=
  wormhole_addr.drop 12

/-- `common::to_wormhole_address`: converts an Ethereum `Address` to a Wormhole
format address by zero-filling the first 12 bytes and copying the 20 address
bytes into the last 20 positions. -/
def to_wormhole_address (address : List Nat) : List Nat :=
  List.replicate 12 0 ++ address

/-- A decoded `SendTransceiverMessage(uint16 recipientChain, bytes encodedMessage)`
log, as returned by the steel event query. Only the `encodedMessage` field is
inspected by the code under verification. -/
structure SendLog where
  encodedMessage : List Nat
deriving DecidableEq

/-- The steel EVM environment reconstructed from `EthEvmInput::into_env` (guest)
or built by `EthEvmEnv::builder` (host). `queryLogs a` is the result of
`Event::new::<SendTransceiverMessage>(&env).address(a).query()`; `commitment`
is the opaque value returned by `env.into_commitment()`. -/
structure EvmEnv where
  queryLogs : List Nat → List SendLog
  commitment : Nat

/-- `common::GuestInput { commitment: EthEvmInput, encoded_message: Bytes,
contract_addr: B256 }`. The serialized `EthEvmInput` is identified with the
environment it reconstructs. -/
structure GuestInput where
  commitment : EvmEnv
  encoded_message : List Nat
  contract_addr : List Nat

/-- `common::Journal { commitment: Commitment, encodedMessage: bytes,
emitterContract: bytes32 }` — the struct committed by the guest. -/
structure Journal where
  commitment : Nat
  encodedMessage : List Nat
  emitterContract : List Nat
deriving DecidableEq

/-- `zkvm/guest/src/main.rs::main`, after input deserialization: reconstruct the
environment, query the `SendTransceiverMessage` logs of
`from_wormhole_address(input.contract_addr)`, assert that some log carries the
expected `encodedMessage` (an `assert!` failure aborts the program, modelled as
`none`, so nothing is committed), and otherwise commit the `Journal` built from
the environment's commitment, the input message and the input contract
address. -/
def guestMain (input : GuestInput) : Option Journal :=
  let env := input.commitment
  let logs := env.queryLogs (from_wormhole_address input.contract_addr)
  if logs.any (fun log => log.encodedMessage == input.encoded_message) then
    some { commitment := env.commitment
           encodedMessage := input.encoded_message
           emitterContract := input.contract_addr }
  else
    none

/-- The failure modes of `host::build_input`, in the order the corresponding
`context`/`ensure!` calls appear in the source (spec taxonomy names). -/
inductive BuildError where
  | NotFound
  | NotIncluded
  | InvalidCommitmentBlock
  | EventNotFound
  | EmptyMessage
  | CommitmentMismatch
deriving DecidableEq

/-- One entry of `receipt.logs()`: its emitting address, and the result of
`SendTransceiverMessage::decode_log(&log.inner).ok()`. -/
structure ReceiptLog where
  address : List Nat
  decoded : Option SendLog
deriving DecidableEq

/-- An `alloy` `TransactionReceipt`, restricted to the two fields
`build_input` reads: `block_number` and `logs()`. -/
structure TransactionReceipt where
  block_number : Option Nat
  logs : List ReceiptLog
deriving DecidableEq

/-- The `find_map` scan inside `build_input`: the first receipt log whose
address equals the contract and which decodes as `SendTransceiverMessage`,
yielding its `encodedMessage`. -/
def findMessage (logs : List ReceiptLog) (contract_addr : List Nat) :
    Option (List Nat) :=
  logs.findSome? (fun log =>
    if log.address = contract_addr then
      log.decoded.map (fun event => event.encodedMessage)
    else none)

/-- `usize::to_le_bytes` applied to a length: the 8 little-endian bytes. -/
def usizeToLeBytes (n : Nat) : List Nat :=
  (List.range 8).map (fun i => n / 256 ^ i % 256)

/-- `host::build_input`. The network reads are parameters: `receiptQ` is the
`get_transaction_receipt` answer, `env` the steel environment built for the
execution/commitment block pair, `serializeInput` the (external) bincode
serializer. Steps in source order: resolve the receipt, extract its block
number, require `commitment_block ≥ execution_block`, scan the receipt logs
for the first matching event, reject an empty message, preflight-query the
same event and require some log to carry the found message, assemble the
`GuestInput` (contract address converted to Wormhole form), serialize it and
return it framed by the 8-byte little-endian length prefix. -/
def build_input (receiptQ : Option TransactionReceipt) (contract_addr : List Nat)
    (commitment_block : Nat) (env : EvmEnv)
    (serializeInput : GuestInput → List Nat) : Except BuildError (List Nat) :=
  match receiptQ with
  | none => .error .NotFound
  | some receipt =>
    match receipt.block_number with
    | none => .error .NotIncluded
    | some execution_block =>
      if commitment_block ≥ execution_block then
        match findMessage receipt.logs contract_addr with
        | none => .error .EventNotFound
        | some encoded_message =>
          if encoded_message.isEmpty then .error .EmptyMessage
          else if (env.queryLogs contract_addr).any
              (fun log => log.encodedMessage == encoded_message) then
            let input : GuestInput :=
              { commitment := env
                encoded_message := encoded_message
                contract_addr := to_wormhole_address contract_addr }
            let input_bytes := serializeInput input
            .ok (usizeToLeBytes input_bytes.length ++ input_bytes)
          else .error .CommitmentMismatch
      else .error .InvalidCommitmentBlock

/-- The externally visible actions of `relay.rs::main` after the proof is
built: the `imageID()` read and the `receiveMessage` transaction with its three
`bytes` arguments in call order. -/
inductive RelayAction where
  | queryImageId
  | sendTransaction (encodedMessage journalData sealArg : List Nat)
deriving DecidableEq

/-- The failure modes of `relay.rs::main` after the proof is built, in source
order: journal decoding, seal encoding, the image-ID `ensure!`, confirmation
and the receipt-status `ensure!`. -/
inductive RelayError where
  | invalidJournal
  | invalidReceipt
  | programIdentityMismatch
  | transactionNotConfirmed
  | transactionFailed
deriving DecidableEq

/-- `relay.rs::main` from the point the proof receipt is available, returning
the list of performed on-chain interactions together with the error aborting
the run, if any. `journalBytes` is `receipt.journal.bytes`; `decodeJournal` is
`Journal::abi_decode`; `sealQ` is the `encode_seal(&receipt)` result;
`contractImageId` is the destination contract's `imageID()` answer; `imageId`
is `NTT_MESSAGE_INCLUSION_ID`; `confirmQ` is the transaction confirmation
(`none` = never confirmed, `some b` = confirmed with status `b`). The
`receiveMessage` call is translated verbatim from the source:
`contract.receiveMessage(receipt.journal.bytes.into(), seal.into(), Bytes::new())`. -/
def relayMain (journalBytes : List Nat) (decodeJournal : List Nat → Option Journal)
    (sealQ : Option (List Nat)) (contractImageId imageId : List Nat)
    (confirmQ : Option Bool) : List RelayAction × Option RelayError :=
  match decodeJournal journalBytes with
  | none => ([], some .invalidJournal)
  | some _ =>
    match sealQ with
    | none => ([], some .invalidReceipt)
    | some sealBytes =>
      if contractImageId = imageId then
        match confirmQ with
        | none => ([.queryImageId, .sendTransaction journalBytes sealBytes []],
                   some .transactionNotConfirmed)
        | some ok =>
          if ok then
            ([.queryImageId, .sendTransaction journalBytes sealBytes []], none)
          else ([.queryImageId, .sendTransaction journalBytes sealBytes []],
                some .transactionFailed)
      else ([.queryImageId], some .programIdentityMismatch)

/-- C6: for every 20-byte native address `a`,
`from_universal (to_universal a) = a`; both directions of the codec are plain
total functions (drop / pad), so there is no failure mode to consider. -/
theorem from_wormhole_to_wormhole_roundtrip (a : List Nat) (h : a.length = 20) :
    from_wormhole_address (to_wormhole_address a) = a := by
  unfold from_wormhole_address to_wormhole_address
  simpa using List.drop_left (List.replicate 12 (0 : Nat)) a

/-- Witness for C6 at a concrete 20-byte address. -/
theorem from_wormhole_to_wormhole_roundtrip_witness :
    from_wormhole_address (to_wormhole_address (List.replicate 19 0 ++ [7]))
      = List.replicate 19 0 ++ [7] :=
  from_wormhole_to_wormhole_roundtrip (List.replicate 19 0 ++ [7]) (by decide)

/-- C7: for every 32-byte universal address `u`,
`to_universal (from_universal u) = u` holds exactly when the high 12 bytes of
`u` are all zero. -/
theorem to_wormhole_from_wormhole_iff (u : List Nat) (h : u.length = 32) :
    to_wormhole_address (from_wormhole_address u) = u ↔
      u.take 12 = List.replicate 12 0 := by
  unfold to_wormhole_address from_wormhole_address
  constructor
  · intro heq
    have htake := congrArg (List.take 12) heq
    simpa using htake.symm
  · intro htake
    conv_rhs => rw [← List.take_append_drop 12 u, htake]

/-- Witness for C7: a 32-byte all-zero-high address satisfies the equation, and
(via the reverse direction at a high-byte-nonzero address) the `take` side. -/
theorem to_wormhole_from_wormhole_iff_witness :
    to_wormhole_address (from_wormhole_address (List.replicate 12 0 ++ List.replicate 20 9))
      = List.replicate 12 0 ++ List.replicate 20 9 :=
  (to_wormhole_from_wormhole_iff (List.replicate 12 0 ++ List.replicate 20 9)
    (by decide)).mpr (by decide)

/-- C3: whenever some log returned by the event query at
`from_wormhole_address input.contract_addr` carries the input's encoded
message, the guest succeeds (`some` journal) with `encodedMessage` equal to
the input message and with an emitter field that, round-tripped through
`from_wormhole_address`, equals the source contract's native address — for
every log list, so independently of the order or number of non-matching
logs. -/
theorem guest_commits_on_matching_log (input : GuestInput)
    (h : ∃ log ∈ input.commitment.queryLogs (from_wormhole_address input.contract_addr),
          log.encodedMessage = input.encoded_message) :
    ∃ j, guestMain input = some j ∧
      j.encodedMessage = input.encoded_message ∧
      from_wormhole_address j.emitterContract
        = from_wormhole_address input.contract_addr := by
  refine ⟨{ commitment := input.commitment.commitment
            encodedMessage := input.encoded_message
            emitterContract := input.contract_addr }, ?_, rfl, rfl⟩
  unfold guestMain
  rw [if_pos]
  simp only [List.any_eq_true, beq_iff_eq]
  exact h

/-- Witness for C3: two logs, the second matching, first non-matching. -/
theorem guest_commits_on_matching_log_witness :
    ∃ j, guestMain
        { commitment := { queryLogs := fun _ => [⟨[5]⟩, ⟨[1, 2]⟩], commitment := 0 }
          encoded_message := [1, 2]
          contract_addr := to_wormhole_address (List.replicate 20 3) }
      = some j ∧
      j.encodedMessage = [1, 2] ∧
      from_wormhole_address j.emitterContract
        = from_wormhole_address (to_wormhole_address (List.replicate 20 3)) :=
  guest_commits_on_matching_log _ ⟨⟨[1, 2]⟩, by decide, rfl⟩

/-- C4: when no log returned by the event query carries the input's encoded
message, the guest's `assert!` fails: the program aborts and commits no
journal (`none`). -/
theorem guest_aborts_without_matching_log (input : GuestInput)
    (h : ∀ log ∈ input.commitment.queryLogs (from_wormhole_address input.contract_addr),
          log.encodedMessage ≠ input.encoded_message) :
    guestMain input = none := by
  unfold guestMain
  rw [if_neg]
  simp only [List.any_eq_true, beq_iff_eq, not_exists, not_and]
  exact h

/-- Witness for C4: one log, not matching. -/
theorem guest_aborts_without_matching_log_witness :
    guestMain
        { commitment := { queryLogs := fun _ => [⟨[5]⟩], commitment := 0 }
          encoded_message := [1, 2]
          contract_addr := to_wormhole_address (List.replicate 20 3) }
      = none :=
  guest_aborts_without_matching_log _ (by decide)

/-- C2 counterexample: a concrete successful guest run (native source address
`replicate 19 0 ++ [7]`, matching log `[1]`) whose journal emitter field is the
32-byte Wormhole-form address — 32 bytes wide, not 20, and not equal to the
source contract's native address. -/
theorem journal_emitter_not_native_counterexample :
    guestMain
        { commitment := { queryLogs := fun _ => [⟨[1]⟩], commitment := 0 }
          encoded_message := [1]
          contract_addr := to_wormhole_address (List.replicate 19 0 ++ [7]) }
      = some { commitment := 0
               encodedMessage := [1]
               emitterContract := to_wormhole_address (List.replicate 19 0 ++ [7]) } ∧
    (to_wormhole_address (List.replicate 19 0 ++ [7])).length = 32 ∧
    to_wormhole_address (List.replicate 19 0 ++ [7]) ≠ List.replicate 19 0 ++ [7] := by
  refine ⟨by decide, by decide, by decide⟩

/-- C2 amended: the journal's emitter field is the 32-byte universal
(Wormhole-form) source contract address, copied unchanged from
`input.contract_addr`; it is 32 bytes wide whenever the input address is, and
`from_wormhole_address` of it recovers the native 20-byte address. -/
theorem journal_emitter_is_universal_address (input : GuestInput) (j : Journal)
    (hlen : input.contract_addr.length = 32)
    (h : guestMain input = some j) :
    j.emitterContract = input.contract_addr ∧
    j.emitterContract.length = 32 ∧
    from_wormhole_address j.emitterContract
      = from_wormhole_address input.contract_addr := by
  simp only [guestMain] at h
  split at h
  · injection h with h'
    subst h'
    exact ⟨rfl, hlen, rfl⟩
  · exact absurd h (by simp)

/-- Witness for C2's amended theorem at a concrete input. -/
theorem journal_emitter_is_universal_address_witness :
    to_wormhole_address (List.replicate 19 0 ++ [8])
        = to_wormhole_address (List.replicate 19 0 ++ [8]) ∧
    (to_wormhole_address (List.replicate 19 0 ++ [8])).length = 32 ∧
    from_wormhole_address (to_wormhole_address (List.replicate 19 0 ++ [8]))
        = from_wormhole_address (to_wormhole_address (List.replicate 19 0 ++ [8])) :=
  journal_emitter_is_universal_address
    { commitment := { queryLogs := fun _ => [⟨[4]⟩], commitment := 3 }
      encoded_message := [4]
      contract_addr := to_wormhole_address (List.replicate 19 0 ++ [8]) }
    { commitment := 3
      encodedMessage := [4]
      emitterContract := to_wormhole_address (List.replicate 19 0 ++ [8]) }
    (by decide) (by decide)

/-- C5: whenever the destination contract's declared `imageID` differs from
`NTT_MESSAGE_INCLUSION_ID`, the relayer run ends in an error; when the earlier
decoding/seal steps succeeded the error is exactly the identity mismatch; and
in every such run no `receiveMessage` transaction appears among the performed
actions — the identity check strictly precedes submission. -/
theorem identity_mismatch_blocks_submission (journalBytes : List Nat)
    (decodeJournal : List Nat → Option Journal) (sealQ : Option (List Nat))
    (contractImageId imageId : List Nat) (confirmQ : Option Bool)
    (h : contractImageId ≠ imageId) :
    ((relayMain journalBytes decodeJournal sealQ contractImageId imageId
        confirmQ).2).isSome = true ∧
    ((decodeJournal journalBytes).isSome = true → sealQ.isSome = true →
      (relayMain journalBytes decodeJournal sealQ contractImageId imageId
          confirmQ).2 = some RelayError.programIdentityMismatch) ∧
    ∀ m jd s, RelayAction.sendTransaction m jd s ∉
      (relayMain journalBytes decodeJournal sealQ contractImageId imageId
        confirmQ).1 := by
  unfold relayMain
  cases hd : decodeJournal journalBytes with
  | none => simp
  | some jv =>
    cases sealQ with
    | none => simp
    | some s =>
      simp [h]

/-- Witness for C5 with a decodable journal, a seal, and mismatched IDs: the
run ends in an error. -/
theorem identity_mismatch_blocks_submission_witness :
    ((relayMain [1] (fun _ => some ⟨0, [9], [2]⟩) (some [3]) [4] [5]
        (some true)).2).isSome = true :=
  (identity_mismatch_blocks_submission [1] (fun _ => some ⟨0, [9], [2]⟩)
    (some [3]) [4] [5] (some true) (by decide)).1

/-- C8: if the receipt resolves with execution block `execution_block` and
`commitment_block < execution_block`, then `build_input` fails with
`InvalidCommitmentBlock` — for every receipt log list and every environment,
so the ordering check precedes any scan of the receipt's logs; and when the
receipt itself is missing the earlier `NotFound` failure is reported instead,
so the check follows receipt resolution. -/
theorem invalid_commitment_block_precedes_log_scan (receipt : TransactionReceipt)
    (contract_addr : List Nat) (commitment_block execution_block : Nat)
    (env : EvmEnv) (serializeInput : GuestInput → List Nat)
    (hbn : receipt.block_number = some execution_block)
    (hlt : commitment_block < execution_block) :
    build_input (some receipt) contract_addr commitment_block env serializeInput
      = .error .InvalidCommitmentBlock ∧
    build_input none contract_addr commitment_block env serializeInput
      = .error .NotFound := by
  refine ⟨?_, rfl⟩
  simp only [build_input, hbn]
  rw [if_neg (by omega)]

/-- Witness for C8: execution block 5, commitment block 4, a log the scan
would otherwise match. -/
theorem invalid_commitment_block_precedes_log_scan_witness :
    build_input
        (some { block_number := some 5
                logs := [{ address := [1], decoded := some ⟨[9]⟩ }] })
        [1] 4 { queryLogs := fun _ => [⟨[9]⟩], commitment := 0 } (fun _ => [7])
      = .error .InvalidCommitmentBlock ∧
    build_input none [1] 4 { queryLogs := fun _ => [⟨[9]⟩], commitment := 0 }
        (fun _ => [7])
      = .error .NotFound :=
  invalid_commitment_block_precedes_log_scan
    { block_number := some 5, logs := [{ address := [1], decoded := some ⟨[9]⟩ }] }
    [1] 4 5 { queryLogs := fun _ => [⟨[9]⟩], commitment := 0 } (fun _ => [7])
    rfl (by decide)

/-- C9: every successful `build_input` run returns exactly the 8-byte
little-endian encoding of the serialized `GuestInput`'s length followed by
the serialized `GuestInput` payload bytes (the input assembled from the
environment, some found message and the Wormhole-form contract address). -/
theorem build_input_output_length_prefixed (receiptQ : Option TransactionReceipt)
    (contract_addr : List Nat) (commitment_block : Nat) (env : EvmEnv)
    (serializeInput : GuestInput → List Nat) (out : List Nat)
    (h : build_input receiptQ contract_addr commitment_block env serializeInput
          = .ok out) :
    ∃ msg,
      out = usizeToLeBytes (serializeInput
              { commitment := env, encoded_message := msg,
                contract_addr := to_wormhole_address contract_addr }).length
            ++ serializeInput
              { commitment := env, encoded_message := msg,
                contract_addr := to_wormhole_address contract_addr } ∧
      (usizeToLeBytes (serializeInput
          { commitment := env, encoded_message := msg,
            contract_addr := to_wormhole_address contract_addr }).length).length
        = 8 := by
  unfold build_input at h
  split at h
  · exact absurd h (by simp)
  split at h
  · exact absurd h (by simp)
  split at h
  · split at h
    · exact absurd h (by simp)
    split at h
    · exact absurd h (by simp)
    split at h
    · injection h with h'
      exact ⟨_, h'.symm, by simp [usizeToLeBytes]⟩
    · exact absurd h (by simp)
  · exact absurd h (by simp)

/-- Witness for C9: a concrete successful run, with serializer constantly
`[7, 7]`, yields the little-endian length 2 followed by the payload. -/
theorem build_input_output_length_prefixed_witness :
    ∃ msg,
      [2, 0, 0, 0, 0, 0, 0, 0, 7, 7]
        = usizeToLeBytes ((fun _ => [7, 7] : GuestInput → List Nat)
              { commitment := { queryLogs := fun _ => [⟨[9]⟩], commitment := 0 },
                encoded_message := msg,
                contract_addr := to_wormhole_address [1] }).length
          ++ (fun _ => [7, 7] : GuestInput → List Nat)
              { commitment := { queryLogs := fun _ => [⟨[9]⟩], commitment := 0 },
                encoded_message := msg,
                contract_addr := to_wormhole_address [1] } ∧
      (usizeToLeBytes ((fun _ => [7, 7] : GuestInput → List Nat)
            { commitment := { queryLogs := fun _ => [⟨[9]⟩], commitment := 0 },
              encoded_message := msg,
              contract_addr := to_wormhole_address [1] }).length).length = 8 :=
  build_input_output_length_prefixed
    (some { block_number := some 5
            logs := [{ address := [1], decoded := some ⟨[9]⟩ }] })
    [1] 5 { queryLogs := fun _ => [⟨[9]⟩], commitment := 0 } (fun _ => [7, 7])
    [2, 0, 0, 0, 0, 0, 0, 0, 7, 7] rfl

/-- C10: the guest performs no emptiness check — an input with empty
`encoded_message` succeeds whenever some queried log's payload is also empty,
committing a journal with empty `encodedMessage`; the rejection of empty
messages lives only in the host-side builder, which fails with `EmptyMessage`
before the proving step whenever the receipt scan finds an empty message. -/
theorem guest_accepts_empty_message_builder_rejects (input : GuestInput)
    (hmsg : input.encoded_message = [])
    (hlog : ∃ log ∈ input.commitment.queryLogs
              (from_wormhole_address input.contract_addr),
            log.encodedMessage = [])
    (receipt : TransactionReceipt) (contract_addr : List Nat)
    (commitment_block execution_block : Nat) (env : EvmEnv)
    (serializeInput : GuestInput → List Nat)
    (hbn : receipt.block_number = some execution_block)
    (hord : execution_block ≤ commitment_block)
    (hfind : findMessage receipt.logs contract_addr = some []) :
    guestMain input
      = some { commitment := input.commitment.commitment
               encodedMessage := []
               emitterContract := input.contract_addr } ∧
    build_input (some receipt) contract_addr commitment_block env serializeInput
      = .error .EmptyMessage := by
  constructor
  · rw [← hmsg]
    unfold guestMain
    rw [if_pos]
    simp only [List.any_eq_true, beq_iff_eq]
    obtain ⟨log, hmem, hnil⟩ := hlog
    exact ⟨log, hmem, by rw [hnil, hmsg]⟩
  · simp only [build_input, hbn, hfind]
    rw [if_pos hord]
    simp

/-- Witness for C10: empty message, one empty-payload log; receipt scan finds
an empty message, so the builder fails with `EmptyMessage`. -/
theorem guest_accepts_empty_message_builder_rejects_witness :
    guestMain
        { commitment := { queryLogs := fun _ => [⟨[]⟩], commitment := 4 }
          encoded_message := []
          contract_addr := to_wormhole_address (List.replicate 20 1) }
      = some { commitment := 4
               encodedMessage := []
               emitterContract := to_wormhole_address (List.replicate 20 1) } ∧
    build_input
        (some { block_number := some 5
                logs := [{ address := [2], decoded := some ⟨[]⟩ }] })
        [2] 6 { queryLogs := fun _ => [⟨[]⟩], commitment := 4 } (fun _ => [7])
      = .error .EmptyMessage :=
  guest_accepts_empty_message_builder_rejects
    { commitment := { queryLogs := fun _ => [⟨[]⟩], commitment := 4 }
      encoded_message := []
      contract_addr := to_wormhole_address (List.replicate 20 1) }
    rfl ⟨⟨[]⟩, by decide, rfl⟩
    { block_number := some 5, logs := [{ address := [2], decoded := some ⟨[]⟩ }] }
    [2] 6 5 { queryLogs := fun _ => [⟨[]⟩], commitment := 4 } (fun _ => [7])
    rfl (by decide) rfl

/-- C1: at a concrete successful relay run — proof journal bytes `[1, 2]`,
seal bytes `[3, 4]`, decoded original message bytes `[9]` — the relayer's
`receiveMessage` call carries the journal bytes in the first (encodedMessage)
slot, the seal bytes in the second (journalData) slot and empty bytes in the
third (seal) slot, and the call with the documented argument order
(message, journal, seal) never occurs; this contradicts the interface's own
parameter documentation and the claim. -/
theorem relay_receiveMessage_argument_order :
    relayMain [1, 2] (fun _ => some ⟨0, [9], List.replicate 32 0⟩) (some [3, 4])
        [5] [5] (some true)
      = ([RelayAction.queryImageId, RelayAction.sendTransaction [1, 2] [3, 4] []],
         none) ∧
    RelayAction.sendTransaction [9] [1, 2] [3, 4] ∉
      (relayMain [1, 2] (fun _ => some ⟨0, [9], List.replicate 32 0⟩) (some [3, 4])
        [5] [5] (some true)).1 := by
  refine ⟨by decide, by decide⟩
